import Mathlib

/-!
Shallow embedding of `src/app.py` (Turtil Streamlit resume/role-fit client).

The file models the two verifiable components of the app:

* `extract_text_safe` — multi-strategy text extraction from an uploaded
  file.  The external parser libraries (PyMuPDF, PyPDF2, pdfminer,
  python-docx) are opaque to the app: each wrapper `_read_*` returns
  `Optional[str]`, `None` when the library raised.  We therefore model the
  parsers as an environment `env : Strategy → Option String` giving each
  wrapper's result on the uploaded file's bytes, and translate the
  dispatch/fallback/warning logic of `extract_text_safe` exactly.

* the `if submitted:` block — validation, the POST to `/evaluate`, the
  exception handlers, and the result-rendering section, modelled as pure
  functions over an explicit network outcome and a JSON value type.

Python-specific semantics (truthiness of strings/lists, `str.strip`,
`str.lower`, `str.endswith`, `dict.get`) are given their own explicit
definitions below, so each theorem can be traced to the source lines.
-/

namespace TurtilApp

/-! ### Character/string primitives (Python semantics, executable) -/

/-- Test whether `needle` is an initial segment of `hay`. -/
def leadsWith : List Char → List Char → Bool
  | _, [] => true
  | [], _ :: _ => false
  | h :: t, n :: ns => (h = n) && leadsWith t ns

/-- Test whether `needle` occurs contiguously inside `hay`. -/
def listContains (hay needle : List Char) : Bool :=
  match hay with
  | [] => needle.isEmpty
  | _ :: t => leadsWith hay needle || listContains t needle

/-- Substring test on strings (used to state "message mentions X"). -/
def strContains (hay needle : String) : Bool :=
  listContains hay.data needle.data

/-- Python `str.endswith`: the pattern is a suffix of the string. -/
def endsWithStr (s pat : String) : Bool :=
  leadsWith s.data.reverse pat.data.reverse

/-- Python `str.lower` (per-character lowercasing, as `str.lower` does for
the ASCII filenames at issue). -/
def lowerStr (s : String) : String :=
  ⟨s.data.map Char.toLower⟩

/-- Python `str.strip` default whitespace characters (ASCII subset). -/
def isPySpace (c : Char) : Bool :=
  c = ' ' || c = '\t' || c = '\n' || c = '\r' || c = '\x0b' || c = '\x0c'

/-- Python `str.strip()`: drop leading and trailing whitespace. -/
def pyStrip (s : String) : String :=
  ⟨((s.data.dropWhile isPySpace).reverse.dropWhile isPySpace).reverse⟩

/-- Python truthiness of an `Optional[str]`: `None` and `""` are falsy,
every other string (including whitespace-only ones) is truthy.  This is
exactly the `if text:` / `if not text:` tests in `extract_text_safe`. -/
def truthyOpt : Option String → Bool
  | none => false
  | some s => !s.data.isEmpty

/-! ### Text extraction (`extract_text_safe`, src/app.py lines 84–107) -/

/-- The four parser wrappers `_read_pdf_pymupdf`, `_read_pdf_pypdf2`,
`_read_pdf_pdfminer`, `_read_docx`.  Each catches every exception and
returns `Optional[str]`; an environment `Strategy → Option String` records
their results on the uploaded bytes. -/
inductive Strategy
  | pymupdf
  | pypdf2
  | pdfminer
  | docx
deriving DecidableEq

/-- File-type dispatch of `extract_text_safe`:
`name = uploaded_file.name.lower()`, then `name.endswith(".pdf")`,
`elif name.endswith(".docx")`, else neither branch runs. -/
inductive Dispatch
  | pdf
  | docx
  | unsupported
deriving DecidableEq

def dispatchOf (name : String) : Dispatch :=
  let lname := lowerStr name
  if endsWithStr lname ".pdf" then .pdf
  else if endsWithStr lname ".docx" then .docx
  else .unsupported

/-- The `for reader in (...): text = reader(data); if text: break` loop.
Returns the final value of `text` together with the list of strategies that
were actually called (in order). -/
def tryReaders (env : Strategy → Option String) : List Strategy → Option String × List Strategy
  | [] => (none, [])
  | [r] => (env r, [r])
  | r :: r2 :: rs =>
    if truthyOpt (env r) then (env r, [r])
    else
      let p := tryReaders env (r2 :: rs)
      (p.1, r :: p.2)

/-- The warning text of src/app.py lines 99–102 (an f-string over the
original, un-lowercased `uploaded_file.name`). -/
def couldNotReadMsg (name : String) : String :=
  "⚠️ Could not read *" ++ name ++ "* – the file might be malformed or not a real PDF/DOCX. Please paste the text manually or upload a clean file."

/-- Observable outcome of one `extract_text_safe` call: the returned text,
the warning shown (if any), which parse strategies were attempted, and
whether the source stream was re-wound (`uploaded_file.seek(0)`). -/
structure ExtractOutcome where
  result : String
  warning : Option String
  attempts : List Strategy
  seekReset : Bool
deriving DecidableEq

/-- Model of `extract_text_safe(uploaded_file)` (src/app.py lines 84–107), with the
upload's filename and the parser results made explicit.  The `.read()` of
the bytes is implicit in `env`; the unconditional `uploaded_file.seek(0)`
before `return` is recorded as `seekReset := true`. -/
def extract_text_safe (name : String) (env : Strategy → Option String) : ExtractOutcome :=
  let p : Option String × List Strategy :=
    match dispatchOf name with
    | .pdf => tryReaders env [.pymupdf, .pypdf2, .pdfminer]
    | .docx => (env .docx, [.docx])
    | .unsupported => (none, [])
  if truthyOpt p.1 then
    { result := pyStrip (p.1.getD ""), warning := none, attempts := p.2, seekReset := true }
  else
    { result := "", warning := some (couldNotReadMsg name), attempts := p.2, seekReset := true }

/-! ### JSON values and the result-rendering section (src/app.py 196–217) -/

/-- Parsed JSON value, as produced by `r.json()`.  Numbers are modelled by
exact rationals (Python parses them to floats; every numeric value the
claims exercise is exactly representable). -/
inductive JVal
  | jnull
  | jbool (b : Bool)
  | jnum (q : ℚ)
  | jstr (s : String)
  | jarr (elems : List JVal)
  | jobj (fields : List (String × JVal))

/-- Python truthiness of a parsed JSON value (`if missing_skills:`,
`if learning_path:`). -/
def truthyJ : JVal → Bool
  | .jnull => false
  | .jbool b => b
  | .jnum q => decide (q ≠ 0)
  | .jstr s => !s.data.isEmpty
  | .jarr xs => !xs.isEmpty
  | .jobj fs => !fs.isEmpty

/-- Python `dict.get(key)` on a parsed JSON object (keys are unique). -/
def jget (fields : List (String × JVal)) (key : String) : Option JVal :=
  match fields with
  | [] => none
  | (k, v) :: rest => if k = key then some v else jget rest key

/-- Python `str()` as applied by f-string interpolation.  String values
display as themselves; other types are approximated (every value the
claims interpolate is a string). -/
def pyStr : JVal → String
  | .jstr s => s
  | .jnum q => toString q
  | .jbool b => if b then "True" else "False"
  | .jnull => "None"
  | .jarr _ => "<list>"
  | .jobj _ => "<dict>"

/-- One-decimal formatting of `f"{v:.1f}"`, over exact rationals.  Python
formats the float with round-half-even; the embedding rounds half up, and
the two agree on every value arising in the claims (e.g. `0.87 * 100`). -/
def fmt1 (v : ℚ) : String :=
  let n : ℤ := ⌊v * 10 + 1 / 2⌋
  toString (n / 10) ++ "." ++ toString (n % 10).natAbs

/-- A Python exception escaping the rendering section (`KeyError` from
`step["skill"]`/`step["steps"]`, `TypeError` from indexing or iterating a
value of the wrong type, or format errors from `f"{v:.1f}"`). -/
inductive RenderErr
  | keyError
  | typeError
deriving DecidableEq

/-- What the rendering section displays on success: the fit-score metric
text, the formatted missing-skills entries (the `f"*{s}*"` strings), and
the learning-path entries as (skill, steps) pairs.  `none` means the
corresponding section was not rendered at all. -/
structure Rendered where
  fitScoreText : Option String
  missingSkillsShown : Option (List String)
  learningPathShown : Option (List (String × List String))
deriving DecidableEq

/-- Lines 199–201: `fit_score = data.get("fit_score")`;
`if fit_score is not None: st.metric(..., f"{fit_score * 100:.1f}%")`.
JSON `null` parses to Python `None`; a bool is a Python int (`True * 100 =
100`); a string or list would be *repeated* by `* 100` and then fail in
the `:.1f` format, a dict fails at the multiplication — either way an
exception escapes. -/
def renderFit (v : Option JVal) : Except RenderErr (Option String) :=
  match v with
  | none => .ok none
  | some .jnull => .ok none
  | some (.jnum q) => .ok (some (fmt1 (q * 100) ++ "%"))
  | some (.jbool b) => .ok (some (fmt1 ((if b then 1 else 0) * 100) ++ "%"))
  | some _ => .error .typeError

/-- Lines 203–206: `missing_skills = data.get("missing_skills", [])`;
if truthy, display `", ".join(f"*{s}*" for s in missing_skills)`.
Iterating a string yields its characters and iterating a dict yields its
keys (both interpolate fine); iterating a number or bool raises. -/
def renderMissing (ms : JVal) : Except RenderErr (Option (List String)) :=
  if truthyJ ms then
    match ms with
    | .jarr xs => .ok (some (xs.map fun v => "*" ++ pyStr v ++ "*"))
    | .jstr s => .ok (some (s.data.map fun c => "*" ++ String.mk [c] ++ "*"))
    | .jobj fs => .ok (some (fs.map fun kv => "*" ++ kv.1 ++ "*"))
    | _ => .error .typeError
  else .ok none

/-- Sequential rendering of a list of values: the Python `for` loop runs
`f` on each element in order and the first exception aborts the loop. -/
def mapExcept {α : Type} (f : JVal → Except RenderErr α) : List JVal → Except RenderErr (List α)
  | [] => .ok []
  | x :: xs =>
    match f x with
    | .error e => .error e
    | .ok y =>
      match mapExcept f xs with
      | .error e => .error e
      | .ok ys => .ok (y :: ys)

/-- Lines 211–214, one loop iteration: `st.markdown(f"*{idx}. {step['skill']}*")`
then `for sub in step["steps"]: st.write("•", textwrap.fill(sub, 90))`.
`step["skill"]` on a non-dict raises `TypeError`; a missing key raises
`KeyError`; iterating `step["steps"]` follows the same Python iteration
rules as above (`textwrap.fill` needs a string, so non-string elements
raise).  `textwrap.fill` only re-flows long lines for display; the step
text itself is kept. -/
def renderStep (v : JVal) : Except RenderErr (String × List String) :=
  match v with
  | .jobj fs =>
    match jget fs "skill" with
    | none => .error .keyError
    | some sk =>
      match jget fs "steps" with
      | none => .error .keyError
      | some (.jarr subs) =>
        (mapExcept (fun sub =>
          match sub with
          | .jstr s => Except.ok s
          | _ => Except.error RenderErr.typeError) subs).map
          (fun steps => (pyStr sk, steps))
      | some (.jstr s) => .ok (pyStr sk, s.data.map fun c => String.mk [c])
      | some (.jobj g) => .ok (pyStr sk, g.map (·.1))
      | some _ => .error .typeError
  | _ => .error .typeError

/-- Lines 208–214: `learning_path = data.get("recommended_learning_path", [])`;
if truthy, enumerate and render each entry via `renderStep`.  A truthy
non-list value fails: a string's characters and a dict's keys are strings,
so `step["skill"]` raises `TypeError`; numbers are not iterable. -/
def renderLP (lp : JVal) : Except RenderErr (Option (List (String × List String))) :=
  if truthyJ lp then
    match lp with
    | .jarr xs => (mapExcept renderStep xs).map some
    | _ => .error .typeError
  else .ok none

/-- The full rendering section (lines 196–217) on the parsed body `data`.
`data.get` on a non-dict raises `AttributeError` (collapsed into
`typeError` here). -/
def renderResult (data : JVal) : Except RenderErr Rendered :=
  match data with
  | .jobj fields =>
    match renderFit (jget fields "fit_score") with
    | .error e => .error e
    | .ok fitScoreText =>
      match renderMissing ((jget fields "missing_skills").getD (.jarr [])) with
      | .error e => .error e
      | .ok missingSkillsShown =>
        match renderLP ((jget fields "recommended_learning_path").getD (.jarr [])) with
        | .error e => .error e
        | .ok learningPathShown =>
          .ok { fitScoreText := fitScoreText,
                missingSkillsShown := missingSkillsShown,
                learningPathShown := learningPathShown }
  | _ => .error .typeError

/-! ### The submit flow (src/app.py lines 172–217) -/

/-- The JSON body of `requests.post(f"{BACKEND_URL}/evaluate", json=...)`
(line 181): `{"resume_text": resume_text, "job_description": jd_text}`. -/
structure EvaluationRequest where
  resume_text : String
  job_description : String
deriving DecidableEq

/-- What one `requests.post` call to `/evaluate` produced: either the call
itself raised (DNS failure, connection refused, timeout — `exn` carries
`str(exc)`), or a response arrived with a status, a raw body, and the
body's JSON parse (`none` when `r.json()` would raise
`JSONDecodeError`). -/
inductive PostResult
  | exn (excText : String)
  | ok (status : Nat) (body : String) (json : Option JVal)

/-- Requests' `Response.raise_for_status` raises `HTTPError` exactly for
status codes 400–599, with a message built from the status code, the
reason phrase and the URL — the response *body* never appears in it
(modelled by the reduced message text here, which keeps exactly the
status-dependent part). -/
def httpErrorText (status : Nat) : String :=
  toString status ++ (if status < 500 then " Client Error" else " Server Error")

/-- The two `except` clauses of lines 186–194, by constructor:
`nonJson` for `requests.exceptions.JSONDecodeError` (checked first),
`requestFailed str(exc)` for every other exception (`raise_for_status`'s
`HTTPError` as well as transport errors from `requests.post`). -/
inductive ErrMsg
  | nonJson
  | requestFailed (excText : String)
deriving DecidableEq

/-- The literal `st.error` texts of lines 187–193. -/
def errText : ErrMsg → String
  | .nonJson => "Received *non-JSON* response from backend – check that the FastAPI endpoint returns a proper dict."
  | .requestFailed e => "❌ Backend request failed – " ++ e

/-- Terminal state of the `if submitted:` block. -/
inductive SubmitOutcome
  | validationWarning (msg : String)
  | errorStop (e : ErrMsg)
  | renderedOk (r : Rendered)
  | renderCrash (e : RenderErr)
deriving DecidableEq

/-- Observable result of one submission: whether a network call to
`/evaluate` was made, the request body sent (if any), and the terminal
outcome. -/
structure SubmitResult where
  networkCalled : Bool
  request : Option EvaluationRequest
  outcome : SubmitOutcome

/-- The `if submitted:` block (lines 172–217): validation with `st.stop()`
(lines 173–175), the POST with `raise_for_status` and `r.json()` (lines
179–185), the exception handlers (lines 186–194), then rendering.  `net`
is the behaviour of the one `requests.post` call. -/
def onSubmit (resume_text jd_text : String) (net : EvaluationRequest → PostResult) : SubmitResult :=
  if pyStrip resume_text = "" ∨ pyStrip jd_text = "" then
    { networkCalled := false, request := none,
      outcome := .validationWarning "Please provide *both* resume and job-description text." }
  else
    match net ⟨resume_text, jd_text⟩ with
    | .exn excText =>
      { networkCalled := true, request := some ⟨resume_text, jd_text⟩,
        outcome := .errorStop (.requestFailed excText) }
    | .ok status _body json =>
      if 400 ≤ status && status < 600 then
        { networkCalled := true, request := some ⟨resume_text, jd_text⟩,
          outcome := .errorStop (.requestFailed (httpErrorText status)) }
      else
        match json with
        | none =>
          { networkCalled := true, request := some ⟨resume_text, jd_text⟩, outcome := .errorStop .nonJson }
        | some data =>
          match renderResult data with
          | .ok r =>
            { networkCalled := true, request := some ⟨resume_text, jd_text⟩, outcome := .renderedOk r }
          | .error e =>
            { networkCalled := true, request := some ⟨resume_text, jd_text⟩, outcome := .renderCrash e }

/-! ### Helper lemmas -/

theorem leadsWith_nil (l : List Char) : leadsWith l [] = true := by
  cases l <;> rfl

theorem leadsWith_append (x y : List Char) : leadsWith (x ++ y) x = true := by
  induction x with
  | nil => exact leadsWith_nil y
  | cons c cs ih => simp [leadsWith, List.append_eq, ih]

theorem listContains_append (x n y : List Char) :
    listContains (x ++ (n ++ y)) n = true := by
  induction x with
  | nil =>
    cases n with
    | nil =>
      cases y with
      | nil => rfl
      | cons h t => simp [listContains, leadsWith_nil]
    | cons m ms =>
      simp only [List.nil_append, listContains, leadsWith_append, Bool.true_or]
  | cons c cs ih =>
    simp only [List.cons_append, listContains, List.append_eq, ih, Bool.or_true]

theorem strContains_of_concat (a name b : String) :
    strContains (a ++ (name ++ b)) name = true := by
  have hdata : (a ++ (name ++ b)).data = a.data ++ (name.data ++ b.data) := rfl
  simp only [strContains, hdata, listContains_append]

theorem pyStrip_empty : pyStrip "" = "" := rfl

theorem strContains_self_append (name b : String) : strContains (name ++ b) name = true := by
  have h := strContains_of_concat "" name b
  have e : ("" ++ (name ++ b) : String) = name ++ b := rfl
  rwa [e] at h

/-! ### Claims -/

/-- C1: submitting the form with either `resumeText` or `jobDescription`
blank after trimming whitespace never issues a network call to the
evaluation endpoint and always surfaces a validation warning; and the
client never sends an `EvaluationRequest` with an empty resume or job
description. -/
theorem C1_blank_input_blocks_network (resume jd : String)
    (net : EvaluationRequest → PostResult) :
    ((pyStrip resume = "" ∨ pyStrip jd = "") →
      (onSubmit resume jd net).networkCalled = false ∧
      (onSubmit resume jd net).request = none ∧
      (onSubmit resume jd net).outcome =
        .validationWarning "Please provide *both* resume and job-description text.") ∧
    (∀ req, (onSubmit resume jd net).request = some req →
      req.resume_text ≠ "" ∧ req.job_description ≠ "") := by
  constructor
  · intro h
    unfold onSubmit
    rw [if_pos h]
    exact ⟨rfl, rfl, rfl⟩
  · intro req hreq
    by_cases h : pyStrip resume = "" ∨ pyStrip jd = ""
    · unfold onSubmit at hreq
      rw [if_pos h] at hreq
      exact absurd hreq (by simp)
    · have hr : (onSubmit resume jd net).request = some ⟨resume, jd⟩ := by
        unfold onSubmit
        rw [if_neg h]
        cases hnet : net ⟨resume, jd⟩ with
        | exn e => rfl
        | ok status body json =>
          dsimp only
          split
          · rfl
          · cases json with
            | none => rfl
            | some data =>
              dsimp only
              cases hrr : renderResult data <;> rfl
      rw [hr] at hreq
      injection hreq with hreq
      subst hreq
      push_neg at h
      refine ⟨fun he => h.1 ?_, fun he => h.2 ?_⟩
      · rw [show resume = "" from he]; exact pyStrip_empty
      · rw [show jd = "" from he]; exact pyStrip_empty

/-- A network behaviour used by witnesses: the POST raises a transport
exception. -/
def netProbe : EvaluationRequest → PostResult := fun _ => .exn "connection refused"

/-- C1 witness: with a whitespace-only resume and a non-blank job
description, no network call happens and the validation warning shows. -/
theorem C1_blank_input_blocks_network_witness :
    (onSubmit "   " "some job description" netProbe).networkCalled = false ∧
    (onSubmit "   " "some job description" netProbe).request = none ∧
    (onSubmit "   " "some job description" netProbe).outcome =
      .validationWarning "Please provide *both* resume and job-description text." :=
  (C1_blank_input_blocks_network "   " "some job description" netProbe).1
    (Or.inl (by decide))

/-- C9: text extraction has no side effects beyond reading the input
bytes: after every call the source upload stream is rewound to the start
(`uploaded_file.seek(0)` runs on every control path), so the caller can
re-read the original upload afterwards. -/
theorem C9_stream_always_reset (name : String) (env : Strategy → Option String) :
    (extract_text_safe name env).seekReset = true := by
  unfold extract_text_safe
  dsimp only
  split <;> rfl

/-- C10: file-type dispatch is case-insensitive — the filename is
lowercased before the extension test, so any letter-casing of `.pdf`
(resp. `.docx`) is dispatched to the pdf (resp. docx) strategies. -/
theorem C10_case_insensitive_dispatch (base ext : String) :
    (lowerStr ext = ".pdf" → dispatchOf (base ++ ext) = .pdf) ∧
    (lowerStr ext = ".docx" → dispatchOf (base ++ ext) = .docx) := by
  have hdata : (base ++ ext).data = base.data ++ ext.data := rfl
  constructor
  · intro h
    have hext : ext.data.map Char.toLower = ".pdf".data := congrArg String.data h
    have hlow : (lowerStr (base ++ ext)).data
        = base.data.map Char.toLower ++ ".pdf".data := by
      simp [lowerStr, hdata, List.map_append, hext]
    have hends : endsWithStr (lowerStr (base ++ ext)) ".pdf" = true := by
      unfold endsWithStr
      rw [hlow, List.reverse_append]
      exact leadsWith_append _ _
    simp [dispatchOf, hends]
  · intro h
    have hext : ext.data.map Char.toLower = ".docx".data := congrArg String.data h
    have hlow : (lowerStr (base ++ ext)).data
        = base.data.map Char.toLower ++ ".docx".data := by
      simp [lowerStr, hdata, List.map_append, hext]
    have hdocx : (".docx".data : List Char) = ['.', 'd', 'o', 'c', 'x'] := rfl
    have hpdf : (".pdf".data : List Char) = ['.', 'p', 'd', 'f'] := rfl
    have hnp : endsWithStr (lowerStr (base ++ ext)) ".pdf" = false := by
      unfold endsWithStr
      rw [hlow, List.reverse_append, hdocx, hpdf]
      simp [leadsWith]
    have hd : endsWithStr (lowerStr (base ++ ext)) ".docx" = true := by
      unfold endsWithStr
      rw [hlow, List.reverse_append]
      exact leadsWith_append _ _
    simp [dispatchOf, hnp, hd]

/-- C10 witness: `report.PDF` and `letter.DocX` are dispatched to the pdf
and docx strategies respectively. -/
theorem C10_case_insensitive_dispatch_witness :
    dispatchOf ("report" ++ ".PDF") = .pdf ∧ dispatchOf ("letter" ++ ".DocX") = .docx :=
  ⟨(C10_case_insensitive_dispatch "report" ".PDF").1 (by decide),
   (C10_case_insensitive_dispatch "letter" ".DocX").2 (by decide)⟩

/-- An environment where PyMuPDF yields whitespace-only text and PyPDF2
would yield real text. -/
def envWhitespaceFirst : Strategy → Option String
  | .pymupdf => some " "
  | .pypdf2 => some "real resume text"
  | _ => none

/-- C2 counterexample: the claim says a strategy returning
whitespace-only text is a non-match and control falls through to the next
strategy, the first non-empty result winning.  On `cv.pdf` with PyMuPDF
returning `" "` and PyPDF2 returning `"real resume text"`, the code stops
at PyMuPDF (whitespace-only is truthy for `if text: break`), never calls
PyPDF2, and returns the stripped empty string with no warning. -/
theorem C2_counterexample :
    (extract_text_safe "cv.pdf" envWhitespaceFirst).attempts = [.pymupdf] ∧
    (extract_text_safe "cv.pdf" envWhitespaceFirst).result = "" ∧
    (extract_text_safe "cv.pdf" envWhitespaceFirst).warning = none ∧
    truthyOpt (envWhitespaceFirst .pypdf2) = true := by
  refine ⟨rfl, rfl, rfl, rfl⟩

/-- C2 (amended): for a `.pdf` file the strategies run in the order
PyMuPDF, PyPDF2, pdfminer; a strategy that throws (wrapper returns `None`)
or returns the empty string is a non-match and control falls through to
the next without surfacing the exception; the first truthy result — any
non-empty string, including a whitespace-only one — wins and is returned
stripped; if no strategy returns a truthy string, every strategy is
attempted and the warning is shown. -/
theorem C2_pdf_strategy_order (name : String) (env : Strategy → Option String)
    (h : dispatchOf name = .pdf) :
    (truthyOpt (env .pymupdf) = true →
      (extract_text_safe name env).attempts = [.pymupdf] ∧
      (extract_text_safe name env).result = pyStrip ((env .pymupdf).getD "") ∧
      (extract_text_safe name env).warning = none) ∧
    (truthyOpt (env .pymupdf) = false → truthyOpt (env .pypdf2) = true →
      (extract_text_safe name env).attempts = [.pymupdf, .pypdf2] ∧
      (extract_text_safe name env).result = pyStrip ((env .pypdf2).getD "") ∧
      (extract_text_safe name env).warning = none) ∧
    (truthyOpt (env .pymupdf) = false → truthyOpt (env .pypdf2) = false →
        truthyOpt (env .pdfminer) = true →
      (extract_text_safe name env).attempts = [.pymupdf, .pypdf2, .pdfminer] ∧
      (extract_text_safe name env).result = pyStrip ((env .pdfminer).getD "") ∧
      (extract_text_safe name env).warning = none) ∧
    (truthyOpt (env .pymupdf) = false → truthyOpt (env .pypdf2) = false →
        truthyOpt (env .pdfminer) = false →
      (extract_text_safe name env).attempts = [.pymupdf, .pypdf2, .pdfminer] ∧
      (extract_text_safe name env).result = "" ∧
      (extract_text_safe name env).warning = some (couldNotReadMsg name)) := by
  refine ⟨fun h1 => ?_, fun h1 h2 => ?_, fun h1 h2 h3 => ?_, fun h1 h2 h3 => ?_⟩ <;>
    (unfold extract_text_safe; rw [h]; simp [tryReaders, h1]) <;>
    simp [h2] <;> simp [h3]

/-- An environment where the first strategy fails and the second
succeeds. -/
def envSecondWins : Strategy → Option String
  | .pymupdf => none
  | .pypdf2 => some "  parsed resume  "
  | _ => none

/-- C2 witness: with PyMuPDF failing and PyPDF2 succeeding on `cv2.pdf`,
exactly the first two strategies run, PyPDF2's text is returned stripped,
and no warning is shown. -/
theorem C2_pdf_strategy_order_witness :
    (extract_text_safe "cv2.pdf" envSecondWins).attempts = [.pymupdf, .pypdf2] ∧
    (extract_text_safe "cv2.pdf" envSecondWins).result =
      pyStrip ((envSecondWins .pypdf2).getD "") ∧
    (extract_text_safe "cv2.pdf" envSecondWins).warning = none :=
  (C2_pdf_strategy_order "cv2.pdf" envSecondWins (by decide)).2.1 rfl rfl

/-! Spec-side extraction result, for comparison with the code (C6). -/

/-- Spec-side `ExtractionResult` (spec §3): either `Text(string)`,
non-empty after trimming, or `Failed(reason)`. -/
inductive ExtractionResult
  | text (s : String)
  | failed (reason : String)
deriving DecidableEq

/-- Abstraction from the code's observable outcome to the spec's
`ExtractionResult`: an empty returned text is a failure whose
user-visible reason is the warning shown. -/
def toExtractionResult (o : ExtractOutcome) : ExtractionResult :=
  if o.result = "" then .failed (o.warning.getD "") else .text o.result

/-- Modelled from the spec: the failure reason the spec prescribes for
unsupported extensions (`Failed("unsupported format")`). -/
def specUnsupportedReason : String := "unsupported format"

/-- An environment where every parser would succeed. -/
def envAllGood : Strategy → Option String := fun _ => some "parsed text"

/-- C6 counterexample: on `notes.txt` (extension neither `.pdf` nor
`.docx`) extraction indeed attempts no strategy, but the failure it
returns is the generic could-not-read warning with empty text — its
reason is not `"unsupported format"`, and the words do not even occur in
the message shown. -/
theorem C6_counterexample :
    (extract_text_safe "notes.txt" envAllGood).attempts = [] ∧
    toExtractionResult (extract_text_safe "notes.txt" envAllGood)
      = .failed (couldNotReadMsg "notes.txt") ∧
    couldNotReadMsg "notes.txt" ≠ specUnsupportedReason ∧
    strContains (couldNotReadMsg "notes.txt") specUnsupportedReason = false := by
  refine ⟨rfl, rfl, by decide, by decide⟩

/-- C6 (amended): for any filename whose extension is neither `.pdf` nor
`.docx` (case-insensitively), extraction attempts no parse strategy and
immediately fails, returning empty text with the generic could-not-read
warning naming the file — not a distinct `"unsupported format"` reason. -/
theorem C6_unsupported_no_strategy (name : String) (env : Strategy → Option String)
    (h : dispatchOf name = .unsupported) :
    (extract_text_safe name env).attempts = [] ∧
    (extract_text_safe name env).result = "" ∧
    (extract_text_safe name env).warning = some (couldNotReadMsg name) ∧
    toExtractionResult (extract_text_safe name env) = .failed (couldNotReadMsg name) := by
  unfold extract_text_safe
  rw [h]
  exact ⟨rfl, rfl, rfl, rfl⟩

/-- C6 witness: `notes.md` with fully working parsers still attempts
nothing and fails with the generic warning. -/
theorem C6_unsupported_no_strategy_witness :
    (extract_text_safe "notes.md" envAllGood).attempts = [] ∧
    (extract_text_safe "notes.md" envAllGood).result = "" ∧
    (extract_text_safe "notes.md" envAllGood).warning = some (couldNotReadMsg "notes.md") ∧
    toExtractionResult (extract_text_safe "notes.md" envAllGood)
      = .failed (couldNotReadMsg "notes.md") :=
  C6_unsupported_no_strategy "notes.md" envAllGood (by decide)

/-- C7: whenever extraction fails because no strategy produced text (every
wrapper returned `None` or an empty string), a human-readable warning
naming the file is shown, the returned text is empty, and the failure is
not fatal: the call still completes normally with the stream rewound, so
the form remains usable and the user can paste text instead. -/
theorem C7_failure_warns_nonfatal (name : String) (env : Strategy → Option String)
    (h1 : truthyOpt (env .pymupdf) = false) (h2 : truthyOpt (env .pypdf2) = false)
    (h3 : truthyOpt (env .pdfminer) = false) (h4 : truthyOpt (env .docx) = false) :
    (extract_text_safe name env).warning = some (couldNotReadMsg name) ∧
    strContains (couldNotReadMsg name) name = true ∧
    (extract_text_safe name env).result = "" ∧
    (extract_text_safe name env).seekReset = true := by
  have hw : strContains (couldNotReadMsg name) name = true := by
    have hsplit : couldNotReadMsg name = "⚠️ Could not read *" ++
        (name ++ "* – the file might be malformed or not a real PDF/DOCX. Please paste the text manually or upload a clean file.") := by
      simp [couldNotReadMsg, String.append_assoc]
    rw [hsplit]
    exact strContains_of_concat _ _ _
  have hmain : (extract_text_safe name env).warning = some (couldNotReadMsg name) ∧
      (extract_text_safe name env).result = "" ∧
      (extract_text_safe name env).seekReset = true := by
    unfold extract_text_safe
    cases hd : dispatchOf name
    · simp [tryReaders, h1, h2, h3]
    · simp [h4]
    · simp [truthyOpt]
  exact ⟨hmain.1, hw, hmain.2.1, hmain.2.2⟩

/-- An environment where every parser fails (raises or yields nothing). -/
def envNoneAll : Strategy → Option String := fun _ => none

/-- C7 witness: on `scan.pdf` with every parser failing, the warning names
the file, the result is empty, and the call completes with the stream
rewound. -/
theorem C7_failure_warns_nonfatal_witness :
    (extract_text_safe "scan.pdf" envNoneAll).warning = some (couldNotReadMsg "scan.pdf") ∧
    strContains (couldNotReadMsg "scan.pdf") "scan.pdf" = true ∧
    (extract_text_safe "scan.pdf" envNoneAll).result = "" ∧
    (extract_text_safe "scan.pdf" envNoneAll).seekReset = true :=
  C7_failure_warns_nonfatal "scan.pdf" envNoneAll rfl rfl rfl rfl

/-! ### Evaluation-call failure modes (C3) -/

/-- A backend returning HTTP 500 with one body text. -/
def net500a : EvaluationRequest → PostResult := fun _ => .ok 500 "db connection lost" none

/-- A backend returning HTTP 500 with a different body text. -/
def net500b : EvaluationRequest → PostResult := fun _ => .ok 500 "quota exceeded" none

/-- C3 counterexample: the claim requires a transport failure and a
non-success HTTP status to map to *distinct* message classes, the latter
including the status and the raw body.  In the code both are caught by the
same generic handler and produce the same `requestFailed` message built
from `str(exc)`; two HTTP-500 responses with different bodies produce the
*identical* message, and the body text never occurs in it. -/
theorem C3_counterexample :
    (onSubmit "resume" "job" net500a).outcome
      = .errorStop (.requestFailed (httpErrorText 500)) ∧
    (onSubmit "resume" "job" net500b).outcome
      = .errorStop (.requestFailed (httpErrorText 500)) ∧
    (onSubmit "resume" "job" net500a).outcome = (onSubmit "resume" "job" net500b).outcome ∧
    strContains (errText (.requestFailed (httpErrorText 500))) "db connection lost" = false ∧
    (onSubmit "resume" "job" netProbe).outcome
      = .errorStop (.requestFailed "connection refused") := by
  refine ⟨rfl, rfl, rfl, by decide, rfl⟩

/-- C3 (amended): transport failures and non-success HTTP statuses are
caught by one generic handler and both yield the same
`"❌ Backend request failed – {exc}"` message class, carrying `str(exc)` —
which for an HTTP error includes the numeric status but not the response
body; a success status whose body fails JSON parsing yields the distinct
non-JSON message; every failure maps to one of these fixed templates,
never a raw stack trace. -/
theorem C3_failure_modes (resume jd excText body : String) (status : Nat)
    (hr : pyStrip resume ≠ "") (hj : pyStrip jd ≠ "") :
    (onSubmit resume jd (fun _ => .exn excText)).outcome
      = .errorStop (.requestFailed excText) ∧
    (400 ≤ status → status < 600 →
      (onSubmit resume jd (fun _ => .ok status body none)).outcome
        = .errorStop (.requestFailed (httpErrorText status)) ∧
      strContains (httpErrorText status) (toString status) = true) ∧
    (status < 400 →
      (onSubmit resume jd (fun _ => .ok status body none)).outcome
        = .errorStop .nonJson) ∧
    (∀ e : String, errText .nonJson ≠ errText (.requestFailed e)) := by
  have hcond : ¬(pyStrip resume = "" ∨ pyStrip jd = "") := by
    rintro (h | h)
    exacts [hr h, hj h]
  refine ⟨?_, fun hs1 hs2 => ⟨?_, ?_⟩, fun hs => ?_, fun e heq => ?_⟩
  · unfold onSubmit
    rw [if_neg hcond]
  · unfold onSubmit
    rw [if_neg hcond]
    dsimp only
    rw [if_pos (by simp [hs1, hs2])]
  · exact strContains_self_append (toString status)
      (if status < 500 then " Client Error" else " Server Error")
  · unfold onSubmit
    rw [if_neg hcond]
    dsimp only
    rw [if_neg (by simp; omega)]
  · have h1 := congrArg (fun s => s.data.head?) heq
    simp only [errText] at h1
    have h2 : ("Received *non-JSON* response from backend – check that the FastAPI endpoint returns a proper dict.").data.head? = some 'R' := rfl
    have h3 : ("❌ Backend request failed – " ++ e).data.head? = some '❌' := rfl
    rw [h2, h3] at h1
    exact absurd h1 (by decide)

/-- C3 witness: concrete failures of each kind. -/
theorem C3_failure_modes_witness :
    (onSubmit "r" "j" (fun _ => .exn "timeout")).outcome
      = .errorStop (.requestFailed "timeout") ∧
    (onSubmit "r" "j" (fun _ => .ok 500 "Internal Server Error" none)).outcome
      = .errorStop (.requestFailed (httpErrorText 500)) ∧
    strContains (httpErrorText 500) (toString 500) = true ∧
    (onSubmit "r" "j" (fun _ => .ok 200 "<html>oops</html>" none)).outcome
      = .errorStop .nonJson := by
  have h1 := C3_failure_modes "r" "j" "timeout" "Internal Server Error" 500
    (by decide) (by decide)
  have h2 := C3_failure_modes "r" "j" "timeout" "<html>oops</html>" 200
    (by decide) (by decide)
  exact ⟨h1.1, (h1.2.1 (by decide) (by decide)).1, (h1.2.1 (by decide) (by decide)).2,
    h2.2.2.1 (by decide)⟩

/-! ### Response-shape tolerance and rendering (C4, C5, C8) -/

theorem mapExcept_jstr (steps : List String) :
    mapExcept (fun sub =>
      match sub with
      | .jstr s => Except.ok s
      | _ => Except.error RenderErr.typeError) (steps.map JVal.jstr)
      = .ok steps := by
  induction steps with
  | nil => rfl
  | cons a l ih => simp [mapExcept, ih]

theorem fmt1_87 : fmt1 (87 : ℚ) = "87.0" := by
  have hfloor : ⌊(87 : ℚ) * 10 + 1 / 2⌋ = (870 : ℤ) := by norm_num
  simp only [fmt1, hfloor]
  decide

/-- A response using the alternative field name `learning_path`. -/
def respAltField : JVal :=
  .jobj [("fit_score", .jnum (87 / 100)),
         ("learning_path", .jarr [.jstr "Learn Docker basics"])]

/-- A response whose learning-path entries are plain strings. -/
def respStringEntries : JVal :=
  .jobj [("recommended_learning_path", .jarr [.jstr "Learn Docker basics"])]

/-- C4 counterexample: the claim says either field name
(`recommended_learning_path` or `learning_path`) is tolerated and entries
may be plain strings, rendering without error.  The code only reads
`recommended_learning_path` — a response carrying `learning_path` renders
*no* learning-path section — and a plain-string entry raises a
`TypeError` at `step["skill"]`. -/
theorem C4_counterexample :
    renderResult respAltField
      = .ok { fitScoreText := some "87.0%", missingSkillsShown := none,
              learningPathShown := none } ∧
    renderResult respStringEntries = .error .typeError := by
  constructor
  · simp [renderResult, respAltField, jget, renderFit, renderMissing, renderLP,
      truthyJ, fmt1_87, Except.map]
  · rfl

/-- C4 (amended): the client reads only the `recommended_learning_path`
field — a `learning_path` field is ignored, whatever its value, and no
learning-path section renders; entries must be `{skill, steps[]}` objects,
which render as (skill, steps) pairs, while a plain-string entry raises a
rendering error instead of rendering. -/
theorem C4_learning_path_shape (v : JVal) (s skill : String) (entries : List JVal)
    (steps : List String) :
    renderResult (.jobj [("learning_path", v)])
      = .ok { fitScoreText := none, missingSkillsShown := none,
              learningPathShown := none } ∧
    renderResult (.jobj [("recommended_learning_path", .jarr (.jstr s :: entries))])
      = .error .typeError ∧
    renderResult (.jobj [("recommended_learning_path",
        .jarr [.jobj [("skill", .jstr skill), ("steps", .jarr (steps.map .jstr))]])])
      = .ok { fitScoreText := none, missingSkillsShown := none,
              learningPathShown := some [(skill, steps)] } := by
  refine ⟨rfl, rfl, ?_⟩
  have hstep : renderStep (.jobj [("skill", .jstr skill), ("steps", .jarr (steps.map .jstr))])
      = .ok (skill, steps) := by
    simp [renderStep, jget, mapExcept_jstr, pyStr, Except.map]
  have hlp : renderLP (.jarr [.jobj [("skill", .jstr skill), ("steps", .jarr (steps.map .jstr))]])
      = .ok (some [(skill, steps)]) := by
    simp [renderLP, truthyJ, mapExcept, hstep, Except.map]
  simp [renderResult, jget, renderFit, renderMissing, truthyJ, hlp]

/-- The response of C5 exactly as the claim states it, with the
learning-path field named `learning_path`. -/
def respC5 : JVal :=
  .jobj [("fit_score", .jnum (87 / 100)),
         ("missing_skills", .jarr [.jstr "Docker", .jstr "Kubernetes"]),
         ("learning_path", .jarr [.jobj [("skill", .jstr "Docker"),
            ("steps", .jarr [.jstr "Learn images", .jstr "Learn compose"])]])]

/-- The same response under the field name the code reads. -/
def respC5R : JVal :=
  .jobj [("fit_score", .jnum (87 / 100)),
         ("missing_skills", .jarr [.jstr "Docker", .jstr "Kubernetes"]),
         ("recommended_learning_path", .jarr [.jobj [("skill", .jstr "Docker"),
            ("steps", .jarr [.jstr "Learn images", .jstr "Learn compose"])]])]

/-- A net behaviour delivering `respC5` on HTTP 200. -/
def netC5 : EvaluationRequest → PostResult := fun _ => .ok 200 "{...json...}" (some respC5)

/-- A net behaviour delivering `respC5R` on HTTP 200. -/
def netC5R : EvaluationRequest → PostResult := fun _ => .ok 200 "{...json...}" (some respC5R)

/-- C5 counterexample: for the claim's response — whose learning-path
field is named `learning_path` — the fit score and missing skills render,
but *no* learning-path section appears, so "one learning-path entry with
two steps" fails. -/
theorem C5_counterexample :
    (onSubmit "my resume" "the job" netC5).outcome
      = .renderedOk { fitScoreText := some "87.0%",
                      missingSkillsShown := some ["*Docker*", "*Kubernetes*"],
                      learningPathShown := none } := by
  have hrr : renderResult respC5
      = .ok { fitScoreText := some "87.0%",
              missingSkillsShown := some ["*Docker*", "*Kubernetes*"],
              learningPathShown := none } := by
    simp [renderResult, respC5, jget, renderFit, renderMissing, renderLP, truthyJ,
      pyStr, fmt1_87, Except.map]
  unfold onSubmit
  rw [if_neg (by decide)]
  dsimp only [netC5]
  rw [if_neg (by decide)]
  simp [hrr]

/-- C5 (amended): for the same response with the learning-path field named
`recommended_learning_path` (the name the code reads), the rendered result
shows a fit score of "87.0%", a missing-skills list containing both names,
and one learning-path entry with two steps. -/
theorem C5_concrete_render :
    (onSubmit "my resume" "the job" netC5R).outcome
      = .renderedOk { fitScoreText := some "87.0%",
                      missingSkillsShown := some ["*Docker*", "*Kubernetes*"],
                      learningPathShown :=
                        some [("Docker", ["Learn images", "Learn compose"])] } := by
  have hrr : renderResult respC5R
      = .ok { fitScoreText := some "87.0%",
              missingSkillsShown := some ["*Docker*", "*Kubernetes*"],
              learningPathShown := some [("Docker", ["Learn images", "Learn compose"])] } := by
    simp [renderResult, respC5R, jget, renderFit, renderMissing, renderLP, truthyJ,
      pyStr, mapExcept, renderStep, fmt1_87, Except.map]
  unfold onSubmit
  rw [if_neg (by decide)]
  dsimp only [netC5R]
  rw [if_neg (by decide)]
  simp [hrr]

/-- C8: a successful response with no learning-path field at all renders
the rest of the result — the fit-score metric and the missing-skills
list — with no learning-path section and no error, for every fit score
and every list of skill names. -/
theorem C8_absent_learning_path (q : ℚ) (skills : List String) :
    renderResult (.jobj [("fit_score", .jnum q),
        ("missing_skills", .jarr (skills.map .jstr))])
      = .ok { fitScoreText := some (fmt1 (q * 100) ++ "%"),
              missingSkillsShown :=
                if skills.isEmpty then none
                else some (skills.map fun s => "*" ++ s ++ "*"),
              learningPathShown := none } := by
  cases skills with
  | nil => rfl
  | cons a l =>
    simp [renderResult, jget, renderFit, renderMissing, renderLP, truthyJ, pyStr,
      List.map_map, Function.comp]

end TurtilApp
